import Mathlib

/-!
Shallow embedding of the two loader scripts of this repository:
`src/fn-device-loader.py` and `src/fn-location-locater.py`.

Network effects are modelled by response oracles: a mutation call receives a
function from the (1-based) attempt number to the outcome of that attempt
(an HTTP status, or a network-level error with no response).  Sleeps are
recorded as the list of delays slept, in order.  Time units are rationals,
mirroring the Python floats (whose arithmetic here is exact: products of
1.0 and 2.0).
-/

namespace Loader

/-- Model of Python `str.strip()`: drops leading and trailing whitespace.
(Defined over the character list so that it evaluates by kernel reduction;
`String.trim` recurses on byte positions, which does not.) -/
def pyStrip (s : String) : String :=
  ⟨((s.toList.dropWhile Char.isWhitespace).reverse.dropWhile Char.isWhitespace).reverse⟩

/-- Model of Python `str.lower()`, character by character. -/
def pyLower (s : String) : String :=
  ⟨s.toList.map Char.toLower⟩

/-- Outcome of one HTTP attempt: either a response carrying a status code
(the body is irrelevant to the mutation calls' control flow), or a
network-level failure with no response (`requests.RequestException` that is
not an `HTTPError`). -/
inductive HttpOutcome where
  | response (status : Nat)
  | netError
deriving DecidableEq

/-- Result of a mutation call: `ok` is true when the Python function returns
normally, false when it raises to its caller; `attempts` counts HTTP attempts
made; `sleeps` lists the backoff delays slept, in order. -/
structure CallResult where
  ok : Bool
  attempts : Nat
  sleeps : List ℚ
deriving DecidableEq

/-- Retry settings shared by `patch_device_location` and `add_tag_to_device`
(`PATCH_MAX_RETRIES = 3`, `PATCH_RETRY_BACKOFF = 2.0` in
src/fn-device-loader.py). -/
def PATCH_MAX_RETRIES : Nat := 3

def PATCH_RETRY_BACKOFF : ℚ := 2

/-- Retry settings of `post_single_location_to_forward`
(`POST_MAX_RETRIES = 3`, `POST_RETRY_BACKOFF = 2.0` in
src/fn-location-locater.py). -/
def POST_MAX_RETRIES : Nat := 3

def POST_RETRY_BACKOFF : ℚ := 2

/-- The `while attempt <= MAX_RETRIES` loop shared verbatim by
`patch_device_location`, `add_tag_to_device` and
`post_single_location_to_forward`.  Branches, in source order:
a status in 400..499 logs and calls `raise_for_status()`, which raises
(caught by `except HTTPError` and re-raised): immediate failure;
a status >= 500 or = 429 (the latter unreachable, having matched the
previous branch) fails on the last attempt, otherwise sleeps the current
delay, multiplies it by the backoff factor and retries; any other status
reaches the final `raise_for_status()`, which does not raise below 400:
success.  A network error retries under the same schedule.  Falling off the
loop end would return `None` (success) in Python; the fuel matches the
attempt budget so that case is unreachable from the initial state. -/
def mutationLoop (maxR : Nat) (backoff : ℚ) (resp : Nat → HttpOutcome) :
    Nat → Nat → ℚ → List ℚ → CallResult
  | 0, attempt, _, sleeps => ⟨true, attempt - 1, sleeps⟩
  | fuel + 1, attempt, delay, sleeps =>
    if attempt > maxR then ⟨true, attempt - 1, sleeps⟩
    else
      match resp attempt with
      | .response s =>
        if 400 ≤ s ∧ s < 500 then ⟨false, attempt, sleeps⟩
        else if 500 ≤ s ∨ s = 429 then
          if attempt = maxR then ⟨false, attempt, sleeps⟩
          else mutationLoop maxR backoff resp fuel (attempt + 1) (delay * backoff)
            (sleeps ++ [delay])
        else ⟨true, attempt, sleeps⟩
      | .netError =>
        if attempt = maxR then ⟨false, attempt, sleeps⟩
        else mutationLoop maxR backoff resp fuel (attempt + 1) (delay * backoff)
          (sleeps ++ [delay])

/-- `patch_device_location` (src/fn-device-loader.py, lines 189-271): in dry
run it logs and returns immediately with no attempt; otherwise it runs the
retry loop starting at attempt 1 with delay 1.0. -/
def patch_device_location (dry_run : Bool) (resp : Nat → HttpOutcome) : CallResult :=
  if dry_run then ⟨true, 0, []⟩
  else mutationLoop PATCH_MAX_RETRIES PATCH_RETRY_BACKOFF resp PATCH_MAX_RETRIES 1 1 []

/-- `add_tag_to_device` (src/fn-device-loader.py, lines 274-359): identical
control flow to `patch_device_location`. -/
def add_tag_to_device (dry_run : Bool) (resp : Nat → HttpOutcome) : CallResult :=
  if dry_run then ⟨true, 0, []⟩
  else mutationLoop PATCH_MAX_RETRIES PATCH_RETRY_BACKOFF resp PATCH_MAX_RETRIES 1 1 []

/-- `post_single_location_to_forward` (src/fn-location-locater.py, lines
267-351): same retry loop; dry run is handled by its caller, not here. -/
def post_single_location_to_forward (resp : Nat → HttpOutcome) : CallResult :=
  mutationLoop POST_MAX_RETRIES POST_RETRY_BACKOFF resp POST_MAX_RETRIES 1 1 []

end Loader

namespace Loader

example : patch_device_location false (fun _ => .response 503) =
    ⟨false, 3, [1, 2]⟩ := by
  norm_num [patch_device_location, mutationLoop, PATCH_MAX_RETRIES, PATCH_RETRY_BACKOFF]

example : patch_device_location false (fun _ => .response 429) =
    ⟨false, 1, []⟩ := by
  norm_num [patch_device_location, mutationLoop, PATCH_MAX_RETRIES, PATCH_RETRY_BACKOFF]

example : patch_device_location false (fun _ => .netError) =
    ⟨false, 3, [1, 2]⟩ := by
  norm_num [patch_device_location, mutationLoop, PATCH_MAX_RETRIES, PATCH_RETRY_BACKOFF]

example : patch_device_location false (fun _ => .response 200) =
    ⟨true, 1, []⟩ := by
  norm_num [patch_device_location, mutationLoop, PATCH_MAX_RETRIES, PATCH_RETRY_BACKOFF]

example : post_single_location_to_forward
    (fun n => if n = 1 then .response 500 else .response 201) =
    ⟨true, 2, [1]⟩ := by
  norm_num [post_single_location_to_forward, mutationLoop, POST_MAX_RETRIES, POST_RETRY_BACKOFF]

/-- Outcome of one geocoding attempt: a response carrying an HTTP status and
the parsed JSON candidate list (each candidate a lat/lon pair), or a
network-level failure. -/
inductive GeoOutcome where
  | response (status : Nat) (candidates : List (ℚ × ℚ))
  | netError

/-- Result of `geocode_address`: `found` holds the first candidate's
coordinates on success and is `none` when the call raises to its caller. -/
structure GeoResult where
  found : Option (ℚ × ℚ)
  attempts : Nat
  sleeps : List ℚ

/-- Geocoding settings of src/fn-location-locater.py
(`GEOCODE_DELAY_SECONDS = 1.0`, `GEOCODE_MAX_RETRIES = 3`,
`GEOCODE_RETRY_BACKOFF = 2.0`). -/
def GEOCODE_DELAY_SECONDS : ℚ := 1

def GEOCODE_MAX_RETRIES : Nat := 3

def GEOCODE_RETRY_BACKOFF : ℚ := 2

/-- The retry loop of `geocode_address` (src/fn-location-locater.py, lines
67-120).  The whole request body sits in one `try` whose handler catches
every exception: `raise_for_status()` (any status ≥ 400, client errors
included), the `ValueError` raised on an empty candidate list, and network
errors are all treated alike — re-raised on the final attempt, otherwise
slept over and retried with the delay doubled.  Falling off the loop end
raises `ValueError` (failure), unlike the mutation loop. -/
def geocodeLoop (resp : Nat → GeoOutcome) : Nat → Nat → ℚ → List ℚ → GeoResult
  | 0, attempt, _, sleeps => ⟨none, attempt - 1, sleeps⟩
  | fuel + 1, attempt, delay, sleeps =>
    if attempt > GEOCODE_MAX_RETRIES then ⟨none, attempt - 1, sleeps⟩
    else
      let failStep : GeoResult :=
        if attempt = GEOCODE_MAX_RETRIES then ⟨none, attempt, sleeps⟩
        else geocodeLoop resp fuel (attempt + 1) (delay * GEOCODE_RETRY_BACKOFF)
          (sleeps ++ [delay])
      match resp attempt with
      | .response s cands =>
        if 400 ≤ s then failStep
        else
          match cands with
          | [] => failStep
          | c :: _ => ⟨some c, attempt, sleeps⟩
      | .netError => failStep

/-- `geocode_address` (src/fn-location-locater.py, lines 67-120): runs the
retry loop from attempt 1 with initial delay `GEOCODE_DELAY_SECONDS`. -/
def geocode_address (resp : Nat → GeoOutcome) : GeoResult :=
  geocodeLoop resp GEOCODE_MAX_RETRIES 1 GEOCODE_DELAY_SECONDS []

/-- Value of the digit characters of `l` read in base 10. -/
def natOfDigits (l : List Char) : Nat :=
  l.foldl (fun a c => a * 10 + (c.toNat - 48)) 0

/-- Model of Python `float` applied to a stripped CSV field: optional sign,
then decimal digits with an optional fractional part, at least one digit in
total.  (Python's `float` additionally accepts exponents, `inf`/`nan` and
digit underscores; the claims below depend only on whether parsing succeeds,
never on those extra forms.) -/
def parseFloat (s : String) : Option ℚ :=
  let l := s.toList
  let neg : Bool := l.head? = some '-'
  let l2 : List Char := if l.head? = some '-' ∨ l.head? = some '+' then l.tail else l
  let intPart := l2.takeWhile (fun c => c ≠ '.')
  let frac := (l2.dropWhile (fun c => c ≠ '.')).tail
  if intPart.all Char.isDigit ∧ frac.all Char.isDigit ∧ (intPart ≠ [] ∨ frac ≠ []) then
    let v : ℚ := (natOfDigits intPart : ℚ) + (natOfDigits frac : ℚ) / (10 : ℚ) ^ frac.length
    some (if neg then -v else v)
  else none

/-- One raw CSV row of the location loader, already split into its named
columns (delimited-file parsing itself is out of scope per the spec); empty
string stands for a missing value. -/
structure LocCsvRow where
  id : String
  name : String
  address : String
  lat : String
  lng : String
deriving DecidableEq

/-- A validated location record as produced by `load_locations_from_csv`. -/
structure LocRecord where
  id : String
  name : String
  address : String
  lat : Option ℚ
  lng : Option ℚ
deriving DecidableEq

/-- `load_locations_from_csv` (src/fn-location-locater.py, lines 123-198):
rows missing a required trimmed value are skipped with a warning; a
non-empty `lat`/`lng` value that fails `float()` is logged and left as
`None` (the row is kept). -/
def load_locations_from_csv : List LocCsvRow → List LocRecord
  | [] => []
  | row :: rest =>
    let i := pyStrip row.id
    let n := pyStrip row.name
    let a := pyStrip row.address
    if i = "" ∨ n = "" ∨ a = "" then load_locations_from_csv rest
    else
      let la := if pyStrip row.lat = "" then none else parseFloat (pyStrip row.lat)
      let ln := if pyStrip row.lng = "" then none else parseFloat (pyStrip row.lng)
      ⟨i, n, a, la, ln⟩ :: load_locations_from_csv rest

/-- A location ready for POSTing: `{id, name, lat, lng}`. -/
structure PreparedLoc where
  id : String
  name : String
  lat : ℚ
  lng : ℚ
deriving DecidableEq

/-- Trace of one iteration of the `geocode_locations` loop body
(src/fn-location-locater.py, lines 212-257): the prepared result (none when
geocoding failed and the record was dropped), the geocoding attempts made,
and the sleeps incurred — backoff sleeps inside `geocode_address` followed
by the unconditional inter-call `time.sleep(GEOCODE_DELAY_SECONDS)`, which
is reached on the geocoding path whether or not it succeeded, and skipped by
the `continue` of the pre-supplied-coordinates branch. -/
structure GeoRecTrace where
  prepared : Option PreparedLoc
  attempts : Nat
  sleeps : List ℚ

def processLocation (loc : LocRecord) (resp : Nat → GeoOutcome) : GeoRecTrace :=
  match loc.lat, loc.lng with
  | some la, some ln => ⟨some ⟨loc.id, loc.name, la, ln⟩, 0, []⟩
  | _, _ =>
    let g := geocode_address resp
    match g.found with
    | some (la, ln) =>
      ⟨some ⟨loc.id, loc.name, la, ln⟩, g.attempts, g.sleeps ++ [GEOCODE_DELAY_SECONDS]⟩
    | none => ⟨none, g.attempts, g.sleeps ++ [GEOCODE_DELAY_SECONDS]⟩

/-- `geocode_locations` (src/fn-location-locater.py, lines 201-264), with
each record paired with its geocoding response oracle: returns the prepared
locations (failed records are dropped) and the concatenated sleep trace. -/
def geocode_locations : List (LocRecord × (Nat → GeoOutcome)) → List PreparedLoc × List ℚ
  | [] => ([], [])
  | (loc, resp) :: rest =>
    let t := processLocation loc resp
    let (rs, ss) := geocode_locations rest
    (match t.prepared with | some p => p :: rs | none => rs, t.sleeps ++ ss)

/-- Exit status of the location pipeline's `main` once the CSV has loaded
(src/fn-location-locater.py, lines 399-438): exit 1 if no rows survived
validation, exit 1 if no record obtained coordinates, otherwise 0 — in dry
run after writing the payload file, and otherwise after POSTing each
prepared location with every POST exception caught and logged
(`# Continue to next location`), so POST outcomes never reach the exit
status. -/
def location_exit_status (locs : List (LocRecord × (Nat → GeoOutcome)))
    (_postResp : Nat → Nat → HttpOutcome) (_dry : Bool) : Nat :=
  if locs.isEmpty then 1
  else if (geocode_locations locs).1.isEmpty then 1
  else 0

/-- Number of failed POSTs among `n` prepared locations, the i-th POST using
oracle `postResp i`. -/
def location_post_failure_total (n : Nat) (postResp : Nat → Nat → HttpOutcome) : Nat :=
  ((List.range n).filter
    (fun i => (post_single_location_to_forward (postResp i)).ok = false)).length

/-- Modelled from the spec: the location pipeline's accumulated per-record
failure count — records that failed geocoding plus failed POST calls
(src/fn-location-locater.py accumulates no such counter; this definition
names the quantity the spec's exit-status sentence refers to, for comparison
with `location_exit_status`). -/
def location_failure_count (locs : List (LocRecord × (Nat → GeoOutcome)))
    (postResp : Nat → Nat → HttpOutcome) (dry : Bool) : Nat :=
  let rs := (geocode_locations locs).1
  (locs.length - rs.length) +
    (if dry then 0 else location_post_failure_total rs.length postResp)

end Loader

namespace Loader

example : geocode_address (fun _ => .response 404 []) = ⟨none, 3, [1, 2]⟩ := by
  norm_num [geocode_address, geocodeLoop, GEOCODE_MAX_RETRIES, GEOCODE_RETRY_BACKOFF,
    GEOCODE_DELAY_SECONDS]

example : geocode_address (fun _ => .response 200 [(5, 6)]) = ⟨some (5, 6), 1, []⟩ := by
  norm_num [geocode_address, geocodeLoop, GEOCODE_MAX_RETRIES, GEOCODE_RETRY_BACKOFF,
    GEOCODE_DELAY_SECONDS]

example : parseFloat "51.5" = some (103 / 2) := by
  simp +decide [parseFloat, natOfDigits]
  norm_num

example : parseFloat "-3" = some (-3) := by simp +decide [parseFloat, natOfDigits]

example : parseFloat "abc" = none := by simp +decide [parseFloat, natOfDigits]

example : parseFloat "" = none := by simp +decide [parseFloat, natOfDigits]

/-- One raw CSV row of the device loader, split into its named columns;
empty string stands for a missing value (a file without a `tag` column is
modelled by rows whose `tag` is empty, which the code treats identically). -/
structure DeviceCsvRow where
  device : String
  location : String
  tag : String
deriving DecidableEq

/-- The regex `TAG_PATTERN = ^[A-Za-z0-9_-]+$` of src/fn-device-loader.py:
nonempty, letters, digits, underscore and hyphen only. -/
def tagPatternOk (s : String) : Bool :=
  s ≠ "" && s.toList.all (fun c => c.isAlphanum || c = '_' || c = '-')

/-- A validated device mapping as appended by `load_devices_from_csv`. -/
structure DeviceEntry where
  device : String
  location : String
  tag : String
deriving DecidableEq

/-- The two kinds of row error collected by `load_devices_from_csv`
(the formatted message text is a logging detail). -/
inductive CsvIssue where
  | missingField
  | invalidTag
deriving DecidableEq

/-- The row loop of `load_devices_from_csv` (src/fn-device-loader.py, lines
108-127): rows are numbered from 2 (header row accounted for); a row with a
blank device or location records a missing-field error and is skipped; a row
whose non-empty trimmed tag fails `TAG_PATTERN` records an invalid-tag error
and is skipped; other rows become device entries. -/
def scanRows : Nat → List DeviceCsvRow → List DeviceEntry × List (Nat × CsvIssue)
  | _, [] => ([], [])
  | idx, row :: rest =>
    let device := pyStrip row.device
    let location := pyStrip row.location
    let tag := pyStrip row.tag
    let prev := scanRows (idx + 1) rest
    if device = "" ∨ location = "" then (prev.1, (idx, .missingField) :: prev.2)
    else if tag ≠ "" ∧ tagPatternOk tag = false then (prev.1, (idx, .invalidTag) :: prev.2)
    else (⟨device, location, tag⟩ :: prev.1, prev.2)

/-- `load_devices_from_csv` (src/fn-device-loader.py, lines 82-133): after
reading every row, if any error was collected the whole load raises
`ValueError` with the aggregated errors (in `main` this exits the run with
status 1 before any record is processed); otherwise it returns the entries. -/
def load_devices_from_csv (rows : List DeviceCsvRow) :
    Except (List (Nat × CsvIssue)) (List DeviceEntry) :=
  let pr := scanRows 2 rows
  if pr.2 = [] then .ok pr.1 else .error pr.2

/-- One entry of the remote locations collection: an `{id, name}` object. -/
structure RemoteLoc where
  id : String
  name : String
deriving DecidableEq

/-- Lookup in a Python-dict model (association list with unique keys):
the value stored at `k`, if any. -/
def dictGet : List (String × String) → String → Option String
  | [], _ => none
  | (a, b) :: rest, k => if a = k then some b else dictGet rest k

/-- Assignment `d[k] = v` in the Python-dict model: replaces the value at
an existing key, otherwise appends the binding. -/
def dictInsert : List (String × String) → String → String → List (String × String)
  | [], k, v => [(k, v)]
  | (a, b) :: rest, k, v =>
    if a = k then (k, v) :: rest else (a, b) :: dictInsert rest k v

/-- The construction loop of `fetch_location_lookup`
(src/fn-device-loader.py, lines 149-163): entries with a blank trimmed id or
name are skipped; the key is the lowercased name; a duplicate key with a
different id logs a warning (no error) and the assignment overwrites, so the
later entry wins. -/
def buildLookup : List (String × String) → List RemoteLoc → List (String × String)
  | acc, [] => acc
  | acc, e :: rest =>
    let i := pyStrip e.id
    let n := pyStrip e.name
    if i = "" ∨ n = "" then buildLookup acc rest
    else buildLookup (dictInsert acc (pyLower n) i) rest

/-- `fetch_location_lookup` (src/fn-device-loader.py, lines 136-169) given
the decoded JSON list: builds the name→id table and raises `ValueError` only
when the result is empty. -/
def fetch_location_lookup (data : List RemoteLoc) :
    Except Unit (List (String × String)) :=
  let m := buildLookup [] data
  if m = [] then .error () else .ok m

/-- The identifier the spec says a key is registered to: the id of the last
entry of the remote collection whose (trimmed, nonempty) name lowercases to
the key — later entries take priority. -/
def lastIdFor : List RemoteLoc → String → Option String
  | [], _ => none
  | e :: rest, key =>
    match lastIdFor rest key with
    | some i => some i
    | none =>
      let i := pyStrip e.id
      let n := pyStrip e.name
      if i ≠ "" ∧ n ≠ "" ∧ pyLower n = key then some i else none

/-- What the record loop of the device `main` observably did for one record:
whether the failure counter was incremented (the loop body increments it at
most once per record), and whether the primary (`patch_device_location`) and
secondary (`add_tag_to_device`) mutation calls were invoked. -/
structure RecordTrace where
  failed : Bool
  patchInvoked : Bool
  tagInvoked : Bool
deriving DecidableEq

/-- Body of the per-record loop of the device `main`
(src/fn-device-loader.py, lines 419-450): a record with a tag absent
(lowercased) from the existing-tags set fails without any call; a record
whose location name (lowercased) resolves to nothing — or to a falsy empty
id — fails without any call; otherwise the location PATCH runs, and on its
failure the tag call is skipped; if a tag is present the tag POST runs, its
failure counting once.  Every failure path continues with the next record. -/
def processDevice (lookup : List (String × String)) (tags : List String)
    (dry : Bool) (d : DeviceEntry) (patchResp tagResp : Nat → HttpOutcome) :
    RecordTrace :=
  if d.tag ≠ "" ∧ tags.contains (pyLower d.tag) = false then ⟨true, false, false⟩
  else
    match dictGet lookup (pyLower d.location) with
    | none => ⟨true, false, false⟩
    | some locId =>
      if locId = "" then ⟨true, false, false⟩
      else
        let p := patch_device_location dry patchResp
        if p.ok = false then ⟨true, true, false⟩
        else if d.tag ≠ "" then
          let t := add_tag_to_device dry tagResp
          ⟨t.ok = false, true, true⟩
        else ⟨false, true, false⟩

/-- One record of the device run: the validated entry together with the
response oracles of its two possible mutation calls. -/
structure DriverEntry where
  entry : DeviceEntry
  patchResp : Nat → HttpOutcome
  tagResp : Nat → HttpOutcome

/-- The accumulated `failures` counter after the record loop of the device
`main` (src/fn-device-loader.py, lines 417-450). -/
def device_main_failures (lookup : List (String × String)) (tags : List String)
    (dry : Bool) : List DriverEntry → Nat
  | [] => 0
  | e :: rest =>
    (if (processDevice lookup tags dry e.entry e.patchResp e.tagResp).failed then 1 else 0) +
      device_main_failures lookup tags dry rest

/-- Exit status of the device `main` once record processing is reached
(src/fn-device-loader.py, lines 452-456): `sys.exit(1)` iff the failure
counter is nonzero, else a normal return (status 0). -/
def device_exit_status (lookup : List (String × String)) (tags : List String)
    (dry : Bool) (entries : List DriverEntry) : Nat :=
  if device_main_failures lookup tags dry entries = 0 then 0 else 1

/-- A geocoding attempt that raises inside the `try` block: an HTTP status
at least 400 (`raise_for_status`), an empty candidate list (`ValueError`),
or a network error. -/
def geoAttemptFails : GeoOutcome → Prop
  | .response s cands => 400 ≤ s ∨ cands = []
  | .netError => True

/-- Two-record location run used against claim C1: record 1 has no
coordinates and every geocoding attempt returns an empty candidate list
(a record failure); record 2 carries both coordinates.  Every POST
succeeds. -/
def claim1Locs : List (LocRecord × (Nat → GeoOutcome)) :=
  [(⟨"1", "A", "addr one", none, none⟩, fun _ => .response 200 []),
   (⟨"2", "B", "addr two", some 3, some 4⟩, fun _ => .response 200 [])]

def claim1Post : Nat → Nat → HttpOutcome := fun _ _ => .response 200

/-- The input rows used against claim C4: a valid row, a row whose tag holds
a space (outside `TAG_PATTERN`), and a valid untagged row. -/
def claim4Rows : List DeviceCsvRow :=
  [⟨"d1", "l1", "ok-tag"⟩, ⟨"d2", "l2", "bad tag"⟩, ⟨"d3", "l3", ""⟩]

end Loader

namespace Loader

example : load_devices_from_csv
    [⟨"d1", "l1", "ok-tag"⟩, ⟨"d2", "l2", "bad tag"⟩, ⟨"d3", "l3", ""⟩] =
    .error [(3, .invalidTag)] := rfl

example : load_devices_from_csv [⟨"d1", "l1", "t_1"⟩] =
    .ok [⟨"d1", "l1", "t_1"⟩] := rfl

example : buildLookup [] [⟨"5", "Building A"⟩, ⟨"7", "building a"⟩] =
    [("building a", "7")] := by decide

example : dictGet (buildLookup [] [⟨"5", "Building A"⟩, ⟨"7", "building a"⟩])
    "building a" = some "7" := by decide

example : processDevice [("loc1", "id1")] [] false ⟨"dev", "Loc1", "nope"⟩
    (fun _ => .response 200) (fun _ => .response 200) = ⟨true, false, false⟩ := by decide

/-- Any attempt answered with a client-error status ends the mutation loop
at once with a failure, no sleep and no further attempt. -/
lemma mutationLoop_client_fail (maxR : Nat) (backoff : ℚ) (resp : Nat → HttpOutcome)
    (fuel attempt : Nat) (delay : ℚ) (sleeps : List ℚ) (s : Nat)
    (ha : ¬ attempt > maxR) (hr : resp attempt = .response s)
    (h4 : 400 ≤ s) (h5 : s < 500) :
    mutationLoop maxR backoff resp (fuel + 1) attempt delay sleeps =
      ⟨false, attempt, sleeps⟩ := by
  unfold mutationLoop
  rw [if_neg ha, hr]
  simp [h4, h5]

/-- Claim C2 (status: code_bug), evaluated at the failing input.  The claim
and the spec say a mutation call answered 429 on each attempt is retried
like a 5xx (3 attempts, sleeps 1.0 and 2.0); the code's own retry branch
tests `status >= 500 or status == 429` under the comment "Retry on server
errors or rate limiting", but the client-error branch `400 <= status < 500`
precedes it and raises, so a 429 is attempted exactly once with no sleep,
while an all-500 call does get the claimed 3 attempts with sleeps 1.0 and
2.0.  This theorem records both behaviours of the code as embedded. -/
theorem claim2_429_single_attempt :
    patch_device_location false (fun _ => .response 429) = ⟨false, 1, []⟩ ∧
    post_single_location_to_forward (fun _ => .response 429) = ⟨false, 1, []⟩ ∧
    patch_device_location false (fun _ => .response 500) = ⟨false, 3, [1, 2]⟩ ∧
    post_single_location_to_forward (fun _ => .response 500) = ⟨false, 3, [1, 2]⟩ := by
  refine ⟨?_, ?_, ?_, ?_⟩ <;>
    norm_num [patch_device_location, post_single_location_to_forward, mutationLoop,
      PATCH_MAX_RETRIES, PATCH_RETRY_BACKOFF, POST_MAX_RETRIES, POST_RETRY_BACKOFF]

/-- Claim C3 (status: confirmed): a mutation call answered with any status
in 400..499 on its first attempt is attempted exactly once, sleeps nothing,
and signals failure to its caller — in both the device pipeline's PATCH and
the location pipeline's POST. -/
theorem claim3_client_error_single_attempt (resp : Nat → HttpOutcome) (s : Nat)
    (h4 : 400 ≤ s) (h5 : s < 500) (hr : resp 1 = .response s) :
    patch_device_location false resp = ⟨false, 1, []⟩ ∧
    post_single_location_to_forward resp = ⟨false, 1, []⟩ :=
  ⟨mutationLoop_client_fail 3 2 resp 2 1 1 [] s (by norm_num) hr h4 h5,
   mutationLoop_client_fail 3 2 resp 2 1 1 [] s (by norm_num) hr h4 h5⟩

/-- Witness for C3 at status 404. -/
theorem claim3_witness :
    patch_device_location false (fun _ => .response 404) = ⟨false, 1, []⟩ ∧
    post_single_location_to_forward (fun _ => .response 404) = ⟨false, 1, []⟩ :=
  claim3_client_error_single_attempt (fun _ => .response 404) 404
    (by norm_num) (by norm_num) rfl

/-- A failing geocoding attempt either exhausts the budget (on attempt 3) or
sleeps the current delay and retries with the delay doubled — identically
for every kind of failure. -/
lemma geocodeLoop_fail_step (resp : Nat → GeoOutcome) (fuel attempt : Nat)
    (delay : ℚ) (sleeps : List ℚ)
    (ha : attempt ≤ 3) (hf : geoAttemptFails (resp attempt)) :
    geocodeLoop resp (fuel + 1) attempt delay sleeps =
      if attempt = 3 then ⟨none, attempt, sleeps⟩
      else geocodeLoop resp fuel (attempt + 1) (delay * GEOCODE_RETRY_BACKOFF)
        (sleeps ++ [delay]) := by
  by_cases h3 : attempt = 3
  · rw [if_pos h3]
    subst h3
    unfold geocodeLoop
    rw [if_neg (by simp only [GEOCODE_MAX_RETRIES]; omega)]
    cases hr : resp 3 with
    | response s cands =>
      rw [hr] at hf
      by_cases h4 : 400 ≤ s
      · simp [h4, GEOCODE_MAX_RETRIES]
      · have hc : cands = [] := hf.resolve_left h4
        subst hc
        simp [h4, GEOCODE_MAX_RETRIES]
    | netError => simp [GEOCODE_MAX_RETRIES]
  · rw [if_neg h3]
    have hg : ¬ attempt = GEOCODE_MAX_RETRIES := by
      simpa [GEOCODE_MAX_RETRIES] using h3
    unfold geocodeLoop
    rw [if_neg (by simp only [GEOCODE_MAX_RETRIES]; omega)]
    cases hr : resp attempt with
    | response s cands =>
      rw [hr] at hf
      by_cases h4 : 400 ≤ s
      · dsimp only
        rw [if_pos h4, if_neg hg]
        conv_lhs => rw [geocodeLoop.eq_def]
      · have hc : cands = [] := hf.resolve_left h4
        subst hc
        dsimp only
        rw [if_neg h4, if_neg hg]
        conv_lhs => rw [geocodeLoop.eq_def]
    | netError =>
      dsimp only
      rw [if_neg hg]
      conv_lhs => rw [geocodeLoop.eq_def]

/-- Counterexample to claim C5 as stated.  The claim says a 4xx geocoding
response and an empty candidate list are fatal for the call and signal
failure without further retries; in the code a constant-404 call is
attempted 3 times (not 1) with backoff sleeps 1.0 and 2.0, and an
empty candidate list on the first attempt is retried and can succeed on the
second. -/
theorem claim5_counterexample :
    geocode_address (fun _ => .response 404 []) = ⟨none, 3, [1, 2]⟩ ∧
    (geocode_address (fun _ => .response 404 [])).attempts ≠ 1 ∧
    geocode_address
      (fun n => if n = 1 then .response 200 [] else .response 200 [(7, 8)]) =
      ⟨some (7, 8), 2, [1]⟩ := by
  refine ⟨?_, ?_, ?_⟩ <;>
    norm_num [geocode_address, geocodeLoop, GEOCODE_MAX_RETRIES, GEOCODE_RETRY_BACKOFF,
      GEOCODE_DELAY_SECONDS]

/-- Claim C5 as amended: geocoding responses are not classified like the
mutation calls.  Every failure — any error status (4xx included), an empty
candidate list, or a network error — is retried uniformly; a call whose
every attempt fails makes exactly 3 attempts with backoff sleeps 1.0 then
2.0 and only then signals failure. -/
theorem claim5_amended_uniform_retry (resp : Nat → GeoOutcome)
    (hf : ∀ n, 1 ≤ n → n ≤ 3 → geoAttemptFails (resp n)) :
    geocode_address resp = ⟨none, 3, [1, 2]⟩ := by
  have s1 := geocodeLoop_fail_step resp 2 1 1 [] (by norm_num)
    (hf 1 (by norm_num) (by norm_num))
  have s2 := geocodeLoop_fail_step resp 1 2 2 [1] (by norm_num)
    (hf 2 (by norm_num) (by norm_num))
  have s3 := geocodeLoop_fail_step resp 0 3 4 [1, 2] (by norm_num)
    (hf 3 (by norm_num) (by norm_num))
  norm_num [GEOCODE_RETRY_BACKOFF] at s1 s2 s3
  show geocodeLoop resp 3 1 1 [] = ⟨none, 3, [1, 2]⟩
  rw [s1, s2, s3]

/-- Witness for the amended C5: a call answered 503 with no candidates on
every attempt. -/
theorem claim5_witness :
    geocode_address (fun _ => .response 503 []) = ⟨none, 3, [1, 2]⟩ :=
  claim5_amended_uniform_retry (fun _ => .response 503 [])
    (fun _ _ _ => Or.inl (by norm_num))

/-- Counterexample to claim C1 as stated for the location pipeline: this run
accumulates one record failure (record 1 never obtains coordinates and is
dropped) yet exits with status 0, because the location `main` counts no
failures — geocoding failures only shrink the prepared list and POST
exceptions are caught and logged.  So exit status 0 is not equivalent to a
zero per-record failure count. -/
theorem claim1_counterexample :
    ¬ (location_exit_status claim1Locs claim1Post false = 0 ↔
       location_failure_count claim1Locs claim1Post false = 0) := by
  have he : location_exit_status claim1Locs claim1Post false = 0 := by
    norm_num [claim1Locs, claim1Post, location_exit_status, geocode_locations,
      processLocation, geocode_address, geocodeLoop, GEOCODE_MAX_RETRIES,
      GEOCODE_RETRY_BACKOFF, GEOCODE_DELAY_SECONDS]
  have hc : location_failure_count claim1Locs claim1Post false = 1 := by
    norm_num [claim1Locs, claim1Post, location_failure_count, geocode_locations,
      processLocation, geocode_address, geocodeLoop, GEOCODE_MAX_RETRIES,
      GEOCODE_RETRY_BACKOFF, GEOCODE_DELAY_SECONDS, location_post_failure_total,
      post_single_location_to_forward, mutationLoop, POST_MAX_RETRIES,
      POST_RETRY_BACKOFF, List.range, List.range.loop]
  intro h
  have h0 := h.mp he
  rw [hc] at h0
  exact absurd h0 (by norm_num)

/-- Claim C1 as amended.  Device pipeline: once record processing is
reached, the exit status is 0 iff the accumulated failure count is 0 —
exactly as claimed.  Location pipeline: the exit status does not reflect
per-record failures; it is 0 iff at least one row survived validation and at
least one record obtained coordinates, regardless of how many records failed
geocoding or how many POSTs failed. -/
theorem claim1_amended_exit_status (lookup : List (String × String))
    (tags : List String) (dry : Bool) (entries : List DriverEntry)
    (locs : List (LocRecord × (Nat → GeoOutcome)))
    (postResp : Nat → Nat → HttpOutcome) (dry2 : Bool) :
    (device_exit_status lookup tags dry entries = 0 ↔
      device_main_failures lookup tags dry entries = 0) ∧
    (location_exit_status locs postResp dry2 = 0 ↔
      locs ≠ [] ∧ (geocode_locations locs).1 ≠ []) := by
  constructor
  · unfold device_exit_status
    split <;> simp_all
  · unfold location_exit_status
    rcases locs with _ | ⟨p, rest⟩
    · simp
    · by_cases h2 : (geocode_locations (p :: rest)).1 = [] <;>
        simp [h2, List.isEmpty_iff]

/-- Claim C8 (status: confirmed).  A location record carrying both
coordinates is passed through unchanged: no geocoding attempt is made and no
sleep at all (in particular no inter-call delay) is incurred; a record
missing a coordinate goes down the geocoding path, whose sleep trace always
ends with the inter-call delay `GEOCODE_DELAY_SECONDS` — so that delay
occurs exactly after the records that needed a geocoding call. -/
theorem claim8_presupplied_passthrough (loc : LocRecord) (resp : Nat → GeoOutcome)
    (a b : ℚ) (loc2 : LocRecord) (resp2 : Nat → GeoOutcome)
    (ha : loc.lat = some a) (hb : loc.lng = some b) (h2 : loc2.lat = none) :
    processLocation loc resp = ⟨some ⟨loc.id, loc.name, a, b⟩, 0, []⟩ ∧
    (processLocation loc2 resp2).sleeps.getLast? = some GEOCODE_DELAY_SECONDS := by
  constructor
  · unfold processLocation
    rw [ha, hb]
  · unfold processLocation
    rw [h2]
    cases hl : loc2.lng <;> cases hg : (geocode_address resp2).found <;>
      simp [hg, List.getLast?_concat]

/-- Witness for C8: a record with both coordinates pre-supplied next to a
record with none (whose geocoding succeeds at once). -/
theorem claim8_witness :
    processLocation ⟨"1", "A", "addr", some 5, some 6⟩ (fun _ => .netError) =
      ⟨some ⟨"1", "A", 5, 6⟩, 0, []⟩ ∧
    (processLocation ⟨"2", "B", "addr", none, none⟩
      (fun _ => .response 200 [(1, 2)])).sleeps.getLast? =
      some GEOCODE_DELAY_SECONDS :=
  claim8_presupplied_passthrough ⟨"1", "A", "addr", some 5, some 6⟩
    (fun _ => .netError) 5 6 ⟨"2", "B", "addr", none, none⟩
    (fun _ => .response 200 [(1, 2)]) rfl rfl rfl

/-- The attempt counter reported by the geocoding loop never falls below
the starting attempt number minus one. -/
lemma geocodeLoop_attempts_lb (resp : Nat → GeoOutcome) :
    ∀ fuel attempt delay sleeps,
      attempt - 1 ≤ (geocodeLoop resp fuel attempt delay sleeps).attempts := by
  intro fuel
  induction fuel with
  | zero => intro attempt delay sleeps; simp [geocodeLoop]
  | succ n ih =>
    intro attempt delay sleeps
    unfold geocodeLoop
    split
    · simp
    · dsimp only
      have hstep : attempt - 1 ≤
          (if attempt = GEOCODE_MAX_RETRIES then (⟨none, attempt, sleeps⟩ : GeoResult)
           else geocodeLoop resp n (attempt + 1) (delay * GEOCODE_RETRY_BACKOFF)
             (sleeps ++ [delay])).attempts := by
        split
        · simp
        · exact le_trans (by omega) (ih (attempt + 1) _ _)
      split
      · split
        · exact hstep
        · split
          · exact hstep
          · simp
      · exact hstep

/-- Every `geocode_address` call makes at least one HTTP attempt. -/
lemma geocode_address_attempts_pos (resp : Nat → GeoOutcome) :
    1 ≤ (geocode_address resp).attempts := by
  show 1 ≤ (geocodeLoop resp 3 1 1 []).attempts
  rw [show (3 : Nat) = 2 + 1 from rfl]
  unfold geocodeLoop
  rw [if_neg (by simp [GEOCODE_MAX_RETRIES])]
  dsimp only
  have hF : 1 ≤ (if (1 : Nat) = GEOCODE_MAX_RETRIES then (⟨none, 1, []⟩ : GeoResult)
      else geocodeLoop resp 2 (1 + 1) (1 * GEOCODE_RETRY_BACKOFF) ([] ++ [1])).attempts := by
    split
    · simp
    · exact le_trans (by norm_num) (geocodeLoop_attempts_lb resp 2 (1 + 1) _ _)
  split
  · split
    · exact hF
    · split
      · exact hF
      · simp
  · exact hF

/-- Claim C10 (status: confirmed).  A location row whose `lat` column holds
a non-empty value that `float()` rejects is kept (not skipped): the bad
coordinate is recorded as absent, and the record therefore takes the
geocoding path — at least one geocoding attempt is made for it, like a
record with no coordinates supplied. -/
theorem claim10_unparsable_coord_kept (row : LocCsvRow) (rest : List LocCsvRow)
    (resp : Nat → GeoOutcome)
    (hid : pyStrip row.id ≠ "") (hn : pyStrip row.name ≠ "")
    (ha : pyStrip row.address ≠ "")
    (hlat : pyStrip row.lat ≠ "") (hbad : parseFloat (pyStrip row.lat) = none) :
    load_locations_from_csv (row :: rest) =
      ⟨pyStrip row.id, pyStrip row.name, pyStrip row.address, none,
        if pyStrip row.lng = "" then none else parseFloat (pyStrip row.lng)⟩ ::
        load_locations_from_csv rest ∧
    1 ≤ (processLocation
      ⟨pyStrip row.id, pyStrip row.name, pyStrip row.address, none,
        if pyStrip row.lng = "" then none else parseFloat (pyStrip row.lng)⟩
      resp).attempts := by
  constructor
  · unfold load_locations_from_csv
    rw [if_neg (by simp [hid, hn, ha]), if_neg hlat, hbad]
    dsimp only
    conv_lhs => rw [load_locations_from_csv.eq_def]
  · unfold processLocation
    dsimp only
    cases hlng : (if pyStrip row.lng = "" then none else parseFloat (pyStrip row.lng)) <;>
      cases hg : (geocode_address resp).found <;>
      simp_all [geocode_address_attempts_pos resp]

/-- Witness for C10: a row with an unparsable `lat` of "abc" and no `lng` is
kept with no coordinates and then geocoded. -/
theorem claim10_witness :
    load_locations_from_csv [⟨"7", "HQ", "1 Main St", "abc", ""⟩] =
      [⟨"7", "HQ", "1 Main St", none, none⟩] ∧
    1 ≤ (processLocation ⟨"7", "HQ", "1 Main St", none, none⟩
      (fun _ => GeoOutcome.response 200 [(1, 2)])).attempts := by
  have h := claim10_unparsable_coord_kept ⟨"7", "HQ", "1 Main St", "abc", ""⟩ []
    (fun _ => GeoOutcome.response 200 [(1, 2)])
    (by decide) (by decide) (by decide) (by decide) (by decide)
  exact h

/-- Counterexample to claim C4 as stated.  The claim says a record with
malformed label characters is a per-record failure: its remaining steps are
skipped and the run continues with the other records.  In the code the row
error is aggregated and `load_devices_from_csv` raises `ValueError` for the
whole file, so `main` exits 1 before processing any record — the loader does
not return the other two records. -/
theorem claim4_counterexample :
    load_devices_from_csv claim4Rows = .error [(3, .invalidTag)] ∧
    load_devices_from_csv claim4Rows ≠
      .ok [⟨"d1", "l1", "ok-tag"⟩, ⟨"d3", "l3", ""⟩] := by
  refine ⟨rfl, ?_⟩
  rw [show load_devices_from_csv claim4Rows = .error [(3, .invalidTag)] from rfl]
  intro h
  exact Except.noConfusion h

/-- A row whose non-empty trimmed tag fails `TAG_PATTERN` forces the error
list of the CSV scan to be non-empty, whatever the other rows hold. -/
lemma scanRows_bad_tag_error (r : DeviceCsvRow)
    (htag : pyStrip r.tag ≠ "") (hbad : tagPatternOk (pyStrip r.tag) = false) :
    ∀ (rows : List DeviceCsvRow) (idx : Nat), r ∈ rows → (scanRows idx rows).2 ≠ [] := by
  intro rows
  induction rows with
  | nil => intro idx h; cases h
  | cons row rest ih =>
    intro idx hmem
    unfold scanRows
    dsimp only
    rcases List.mem_cons.mp hmem with rfl | hmem2
    · by_cases hml : pyStrip r.device = "" ∨ pyStrip r.location = ""
      · rw [if_pos hml]; simp
      · rw [if_neg hml, if_pos ⟨htag, hbad⟩]; simp
    · have htl := ih (idx + 1) hmem2
      by_cases hml : pyStrip row.device = "" ∨ pyStrip row.location = ""
      · rw [if_pos hml]; simp
      · rw [if_neg hml]
        by_cases htg : pyStrip row.tag ≠ "" ∧ tagPatternOk (pyStrip row.tag) = false
        · rw [if_pos htg]; simp
        · rw [if_neg htg]; simpa using htl

/-- Claim C4 as amended: a device record whose label contains a character
outside letters, digits, underscore and hyphen does not merely fail that
record — the CSV load aggregates the error and raises after reading the
file, so the run aborts (exit 1) before any record is processed, instead of
continuing with the other records. -/
theorem claim4_amended_invalid_tag_aborts_run (rows : List DeviceCsvRow)
    (r : DeviceCsvRow) (hmem : r ∈ rows)
    (htag : pyStrip r.tag ≠ "") (hbad : tagPatternOk (pyStrip r.tag) = false) :
    ∃ es, load_devices_from_csv rows = .error es := by
  have h := scanRows_bad_tag_error r htag hbad rows 2 hmem
  unfold load_devices_from_csv
  dsimp only
  rw [if_neg h]
  exact ⟨_, rfl⟩

/-- Witness for the amended C4. -/
theorem claim4_witness :
    ∃ es, load_devices_from_csv [⟨"d9", "l9", "b@d"⟩] = .error es :=
  claim4_amended_invalid_tag_aborts_run [⟨"d9", "l9", "b@d"⟩] ⟨"d9", "l9", "b@d"⟩
    (by decide) (by decide) (by decide)

/-- Lookup after assignment in the dict model: the assigned key now maps to
the new value and every other key is unchanged. -/
lemma dictGet_dictInsert (m : List (String × String)) (k v k' : String) :
    dictGet (dictInsert m k v) k' = if k = k' then some v else dictGet m k' := by
  induction m with
  | nil => simp [dictInsert, dictGet]
  | cons hd tl ih =>
    obtain ⟨a, b⟩ := hd
    unfold dictInsert
    by_cases hak : a = k
    · subst hak
      rw [if_pos rfl]
      unfold dictGet
      by_cases h' : a = k'
      · rw [if_pos h', if_pos h']
      · rw [if_neg h', if_neg h', if_neg h']
    · rw [if_neg hak]
      unfold dictGet
      by_cases h' : a = k'
      · have hkk : ¬ k = k' := fun hk => hak (h'.trans hk.symm)
        rw [if_pos h', if_neg hkk, if_pos h']
      · rw [if_neg h', ih, if_neg h']

/-- What `dictGet` returns on the built lookup: the id of the last valid
entry whose lowercased name equals the key, falling back to the
accumulator. -/
lemma buildLookup_get (data : List RemoteLoc) :
    ∀ (acc : List (String × String)) (key : String),
      dictGet (buildLookup acc data) key =
        match lastIdFor data key with
        | some i => some i
        | none => dictGet acc key := by
  induction data with
  | nil => intro acc key; simp [buildLookup, lastIdFor]
  | cons e rest ih =>
    intro acc key
    unfold buildLookup lastIdFor
    dsimp only
    by_cases hv : pyStrip e.id = "" ∨ pyStrip e.name = ""
    · rw [if_pos hv, ih]
      have hc : ¬ (pyStrip e.id ≠ "" ∧ pyStrip e.name ≠ "" ∧
          pyLower (pyStrip e.name) = key) := by tauto
      cases hr : lastIdFor rest key with
      | some i => rfl
      | none => rw [if_neg hc]
    · rw [if_neg hv, ih]
      push_neg at hv
      cases hr : lastIdFor rest key with
      | some i => rfl
      | none =>
        rw [dictGet_dictInsert]
        by_cases hk : pyLower (pyStrip e.name) = key
        · rw [if_pos hk, if_pos ⟨hv.1, hv.2, hk⟩]
        · rw [if_neg hk, if_neg (fun h => hk h.2.2)]

/-- Claim C6 (status: confirmed).  Resolving any key against the built
reference lookup returns exactly the id of the last remote entry registered
under that key (so on a duplicate lowercased name with different ids the
later entry wins), and `fetch_location_lookup` raises only when the built
table is empty — a duplicate alone never raises. -/
theorem claim6_lookup_last_entry_wins (data : List RemoteLoc) (key : String) :
    dictGet (buildLookup [] data) key = lastIdFor data key ∧
    (fetch_location_lookup data = .error () ↔ buildLookup [] data = []) := by
  constructor
  · rw [buildLookup_get]
    cases hr : lastIdFor data key with
    | some i => rfl
    | none => simp [dictGet]
  · unfold fetch_location_lookup
    dsimp only
    split <;> simp_all

/-- Claim C7 (status: confirmed).  A device record carrying a tag absent
(case-insensitively) from the existing-tags set fails before any network
call: its trace shows one failure, no PATCH and no tag POST, it contributes
exactly one to the failure counter, and the remaining records are still
processed (the counter over the rest is unchanged). -/
theorem claim7_unknown_label_no_calls (lookup : List (String × String))
    (tags : List String) (dry : Bool) (d : DeviceEntry)
    (pr tr : Nat → HttpOutcome) (rest : List DriverEntry)
    (htag : d.tag ≠ "") (habs : tags.contains (pyLower d.tag) = false) :
    processDevice lookup tags dry d pr tr = ⟨true, false, false⟩ ∧
    device_main_failures lookup tags dry (⟨d, pr, tr⟩ :: rest) =
      1 + device_main_failures lookup tags dry rest := by
  have h : processDevice lookup tags dry d pr tr = ⟨true, false, false⟩ := by
    unfold processDevice
    rw [if_pos ⟨htag, habs⟩]
  refine ⟨h, ?_⟩
  rw [show device_main_failures lookup tags dry (⟨d, pr, tr⟩ :: rest) =
      (if (processDevice lookup tags dry d pr tr).failed then 1 else 0) +
        device_main_failures lookup tags dry rest from rfl, h]
  simp

/-- Witness for C7: the tag "ghost" is not among the existing tags. -/
theorem claim7_witness :
    processDevice [("sitea", "id1")] ["known"] false ⟨"dev1", "SiteA", "ghost"⟩
      (fun _ => .response 200) (fun _ => .response 200) = ⟨true, false, false⟩ ∧
    device_main_failures [("sitea", "id1")] ["known"] false
      [⟨⟨"dev1", "SiteA", "ghost"⟩, fun _ => .response 200, fun _ => .response 200⟩] = 1 :=
  claim7_unknown_label_no_calls [("sitea", "id1")] ["known"] false
    ⟨"dev1", "SiteA", "ghost"⟩ (fun _ => .response 200) (fun _ => .response 200) []
    (by decide) (by decide)

/-- Claim C9 (status: confirmed).  When a record passes the tag and lookup
checks but its location PATCH fails, the trace shows exactly one failure
with the PATCH invoked and the tag POST skipped, the record adds exactly one
to the failure counter, and the remaining records are still processed. -/
theorem claim9_patch_failure_skips_tag (lookup : List (String × String))
    (tags : List String) (d : DeviceEntry) (pr tr : Nat → HttpOutcome)
    (rest : List DriverEntry) (locId : String)
    (hok : d.tag = "" ∨ tags.contains (pyLower d.tag) = true)
    (hres : dictGet lookup (pyLower d.location) = some locId)
    (hne : locId ≠ "")
    (hfail : (patch_device_location false pr).ok = false) :
    processDevice lookup tags false d pr tr = ⟨true, true, false⟩ ∧
    device_main_failures lookup tags false (⟨d, pr, tr⟩ :: rest) =
      1 + device_main_failures lookup tags false rest := by
  have hc : ¬ (d.tag ≠ "" ∧ tags.contains (pyLower d.tag) = false) := by
    rcases hok with h | h
    · simp [h]
    · intro hcontra
      rw [h] at hcontra
      exact Bool.noConfusion hcontra.2
  have h : processDevice lookup tags false d pr tr = ⟨true, true, false⟩ := by
    unfold processDevice
    rw [if_neg hc, hres]
    dsimp only
    rw [if_neg hne]
    simp [hfail]
  refine ⟨h, ?_⟩
  rw [show device_main_failures lookup tags false (⟨d, pr, tr⟩ :: rest) =
      (if (processDevice lookup tags false d pr tr).failed then 1 else 0) +
        device_main_failures lookup tags false rest from rfl, h]
  simp

/-- Witness for C9: an untagged record whose PATCH is answered 404. -/
theorem claim9_witness :
    processDevice [("loc1", "id1")] [] false ⟨"dev", "Loc1", ""⟩
      (fun _ => .response 404) (fun _ => .response 200) = ⟨true, true, false⟩ ∧
    device_main_failures [("loc1", "id1")] [] false
      [⟨⟨"dev", "Loc1", ""⟩, fun _ => .response 404, fun _ => .response 200⟩] = 1 :=
  claim9_patch_failure_skips_tag [("loc1", "id1")] [] ⟨"dev", "Loc1", ""⟩
    (fun _ => .response 404) (fun _ => .response 200) [] "id1"
    (Or.inl rfl) (by decide) (by decide) (by decide)

end Loader
